import Mathlib

/-!
Verification of the Kea CO2 sensor firmware core (`src/main.cpp`).

This file gives a shallow embedding, in Lean, of the numeric and state-machine
core of the firmware: the CO2-to-lightbar mapping and smoothing algorithm of
`sensorManagerTask`, the lightbar animation step `updatePosition` and the
notification handler `handleTargetPositionNotification` of `lightBarTask`,
the circular time-series buffer update of `jsonFileManagerTask`, the CSV sink
loop of `csvFileManagerTask`, the `/data.json` handler of `setUpWebserver`,
the rounding helper `roundToXDP`, and the FreeRTOS single-slot task
notification channel used between the tasks.

C `double` values are embedded as exact rationals (`ℚ`); machine integers are
embedded as `ℕ`/`ℤ` with explicit truncation (`% 2 ^ w`) at the points where
the C code narrows a value.  C casts from a floating-point value to an integer
type truncate toward zero, which `cTrunc` mirrors.
-/

namespace KeaCO2

/-- `PIXEL_COUNT` (main.cpp line 75). -/
def PIXEL_COUNT : ℕ := 11

/-- `TEMP_OFFSET` (main.cpp line 76): 10.6 as an exact rational. -/
def TEMP_OFFSET : ℚ := 106 / 10

/-- `CO2_MAX` (main.cpp line 88). -/
def CO2_MAX : ℕ := 2000

/-- `CO2_MIN` (main.cpp line 89). -/
def CO2_MIN : ℕ := 400

/-- `MAX_BRIGHTNESS` (main.cpp line 92). -/
def MAX_BRIGHTNESS : ℕ := 200

/-- `LIGHTBAR_MAX_POSITION = PIXEL_COUNT * 255` (main.cpp line 132). -/
def LIGHTBAR_MAX_POSITION : ℕ := PIXEL_COUNT * 255

/-- `LIGHTBAR_MIN_POSITION` (main.cpp line 133). -/
def LIGHTBAR_MIN_POSITION : ℕ := 255

/-- `JSON_DATA_POINTS_MAX` (main.cpp line 148): documented in the source as
"The maximum number of data points to store in the JSON document." -/
def JSON_DATA_POINTS_MAX : ℕ := 128

/-- `MAX_CSV_SIZE_BYTES` (main.cpp line 120). -/
def MAX_CSV_SIZE_BYTES : ℕ := 2000000

/-- `low8Bits(w) = (uint8_t)(w)` (main.cpp line 135). -/
def low8Bits (w : ℕ) : ℕ := w % 256

/-- `high16Bits(w) = (uint16_t)((w) >> 16)` (main.cpp line 136). -/
def high16Bits (w : ℕ) : ℕ := (w / 65536) % 65536

/-- Values of the `lightBarModes` enum (main.cpp lines 93-102). -/
def idleFrame : ℕ := 0

def lightBarScale : ℕ := 1

def flashRed : ℕ := 2

def purplePulse : ℕ := 3

def greenPulse : ℕ := 4

def rgbTest : ℕ := 5

def errorRed : ℕ := 6

def ledOffMode : ℕ := 7

/-- A C cast from a `double` to an integer type truncates toward zero. -/
def cTrunc (q : ℚ) : ℤ := if 0 ≤ q then ⌊q⌋ else -⌊-q⌋

/-- C integer division truncates toward zero (`Int.tdiv`). -/
def cDiv (a b : ℤ) : ℤ := Int.tdiv a b

/-- `roundToXDP` (main.cpp lines 175-177):
`return (float)(((int)(value * (10 * decimalPlaces) + 0.5)) / (10 * decimalPlaces));`
The multiplication by `(10 * decimalPlaces)` happens in `double`; the outer
division is C integer division of the truncated value by the `int`
`10 * decimalPlaces`. -/
def roundToXDP (decimalPlaces : ℕ) (value : ℚ) : ℚ :=
  ((cDiv (cTrunc (value * ((10 * decimalPlaces : ℕ) : ℚ) + 1/2)) ((10 * decimalPlaces : ℕ) : ℤ)) : ℚ)

/-- `mapCO2toPosition` (main.cpp lines 220-226): linear `double` map then a
cast to `uint16_t`. -/
def mapCO2toPosition (inputCO2 : ℚ) : ℕ :=
  if inputCO2 > (CO2_MIN : ℚ) then
    (cTrunc ((inputCO2 - (CO2_MIN : ℚ)) * (LIGHTBAR_MAX_POSITION : ℚ) /
      ((CO2_MAX : ℚ) - (CO2_MIN : ℚ)))).toNat % 65536
  else 0

/-- `updatePosition` (main.cpp lines 255-266), on `uint16_t` values.  The only
arithmetic that could wrap is the additive step, which is taken modulo
`2 ^ 16`; the decrement is guarded by `position > targetPosition` and the
subtraction `targetPosition - position` by `position < targetPosition`. -/
def updatePosition (position targetPosition : ℕ) : ℕ :=
  if targetPosition < LIGHTBAR_MIN_POSITION then
    LIGHTBAR_MIN_POSITION
  else if targetPosition < LIGHTBAR_MAX_POSITION then
    if position > targetPosition then
      position - 1
    else if position < targetPosition then
      (position + (targetPosition - position) / 32 + 1) % 65536
    else
      position
  else
    position

/-- `handleTargetPositionNotification` (main.cpp lines 289-304).  Returns the
new `(targetPosition, lightBarMode)` pair. -/
def handleTargetPositionNotification (targetPosition : ℕ) (rawNotification : ℕ)
    (lightBarMode : ℕ) : ℕ × ℕ :=
  let rawPosition := high16Bits rawNotification
  let targetPosition1 := if rawPosition ≠ 0 then rawPosition else targetPosition
  let rawMode := low8Bits rawNotification
  let lightBarMode1 :=
    if rawMode ≠ 0 then rawMode
    else if targetPosition1 > LIGHTBAR_MAX_POSITION then flashRed
    else lightBarMode
  (targetPosition1, lightBarMode1)

/-- The lightbar renderer state owned by `lightBarTask`. -/
structure LightBarState where
  targetPosition : ℕ
  position : ℕ
  brightness : ℕ
  mode : ℕ
deriving DecidableEq

/-- End of the `flashRed` case of the frame loop (main.cpp lines 383-387):
after one red/black flash period, the renderer returns to `lightBarScale`
(resetting position and brightness) exactly when the target position has
dropped below `LIGHTBAR_MAX_POSITION`. -/
def flashRedStep (s : LightBarState) : LightBarState :=
  if s.targetPosition < LIGHTBAR_MAX_POSITION then
    { s with mode := lightBarScale, position := LIGHTBAR_MAX_POSITION,
             brightness := MAX_BRIGHTNESS }
  else s

/-- The smoothing state owned by `sensorManagerTask` (main.cpp lines 947-948):
`prevCO2`, `trendCO2` and the exponentially smoothed temperature and
humidity. -/
structure SensorState where
  prevCO2 : ℚ
  trendCO2 : ℚ
  temperature : ℚ
  humidity : ℚ
deriving DecidableEq

/-- Initial values of the sensor-manager locals (main.cpp lines 947-948):
`temperature = 20.0, humidity = 0.0, prevCO2 = 0, trendCO2 = 0`. -/
def initSensorState : SensorState :=
  { prevCO2 := 0, trendCO2 := 0, temperature := 20, humidity := 0 }

/-- One poll cycle of `sensorManagerTask` (main.cpp lines 966-989): `status`
is the return value of `co2.readMeasurement`; on `status = 0` the smoothing
state is updated and a lightbar position is produced, otherwise the cycle
leaves the state untouched and notifies nothing. -/
def processMeasurement (status : ℤ) (co2 rawTemperature rawHumidity : ℚ)
    (s : SensorState) : SensorState × Option ℕ :=
  if status = 0 then
    let prev := if s.prevCO2 = 0 then co2 else s.prevCO2
    let trend := (1/2 : ℚ) * (co2 - prev) + (1 - 1/2 : ℚ) * s.trendCO2
    let lightbarPosition := mapCO2toPosition (co2 + trend)
    let rawTemperature1 := rawTemperature - TEMP_OFFSET
    let temperature1 := s.temperature + (rawTemperature1 - s.temperature) * (1/2 : ℚ)
    let humidity1 := s.humidity + (rawHumidity - s.humidity) * (1/2 : ℚ)
    ({ prevCO2 := co2, trendCO2 := trend, temperature := temperature1,
       humidity := humidity1 }, some lightbarPosition)
  else
    (s, none)

/-- The state transition of one successful (`status = 0`) sensor cycle. -/
def sensorStep (co2 rawTemperature rawHumidity : ℚ) (s : SensorState) : SensorState :=
  (processMeasurement 0 co2 rawTemperature rawHumidity s).1

/-- `n` successful sensor cycles with a constant reading. -/
def iterConst (co2 rawTemperature rawHumidity : ℚ) : ℕ → SensorState → SensorState
  | 0, s => s
  | n + 1, s => iterConst co2 rawTemperature rawHumidity n (sensorStep co2 rawTemperature rawHumidity s)

/-- A FreeRTOS task-notification slot: a single pending 32-bit value. -/
structure NotifySlot where
  pending : Bool
  value : ℕ
deriving DecidableEq

/-- `xTaskNotify(…, eSetValueWithoutOverwrite)` (used for the lightbar position
at main.cpp line 974): the send fails, leaving the slot unchanged, when a
notification is already pending. -/
def xTaskNotifyWithoutOverwrite (v : ℕ) (s : NotifySlot) : NotifySlot × Bool :=
  if s.pending then (s, false) else ({ pending := true, value := v }, true)

/-- `xTaskNotify(…, eSetValueWithOverwrite)` (used for mode notifications,
e.g. main.cpp lines 449, 483, 558, 567): always replaces the slot value. -/
def xTaskNotifyWithOverwrite (v : ℕ) (_s : NotifySlot) : NotifySlot × Bool :=
  ({ pending := true, value := v }, true)

/-- `xTaskNotifyWait(0, …, &raw, 0)` (main.cpp line 353): delivers and clears
the pending value, if any. -/
def xTaskNotifyWaitModel (s : NotifySlot) : Option ℕ × NotifySlot :=
  if s.pending then (some s.value, { s with pending := false }) else (none, s)

/-- The notification word built by `sensorManagerTask` (main.cpp line 973):
the lightbar position in the top 16 bits, mode bits zero. -/
def sensorNotifyWord (lightbarPosition : ℕ) : ℕ := (lightbarPosition * 65536) % 2 ^ 32

/-- The CO2 channel of the JSON time-series store, as maintained by
`jsonFileManagerTask` (main.cpp lines 843-899): the circular write index
`CO2Index`, the slots of the `data` array (epoch, integer value), and the
`prevCO2` / `prevEpoch` trackers. -/
structure Co2Channel where
  co2Index : ℕ
  data : List (ℤ × ℤ)
  prevCO2 : ℚ
  prevEpoch : ℤ
deriving DecidableEq

/-- Initial channel state (main.cpp lines 844-848 and `initializeJson`):
empty data array, zero index and trackers. -/
def initCo2Channel : Co2Channel :=
  { co2Index := 0, data := [], prevCO2 := 0, prevEpoch := 0 }

/-- Assigning `jsonDataDocument[0]["data"][i] = …`: ArduinoJson replaces the
element when `i` is an existing index and appends when `i` equals the current
array size. -/
def writeSlot (i : ℕ) (v : ℤ × ℤ) (l : List (ℤ × ℤ)) : List (ℤ × ℤ) :=
  if i < l.length then l.set i v else l ++ [v]

/-- One delivery of a sample to the CO2 channel (main.cpp lines 862-897,
CO2 part): gated on a strictly newer epoch second, de-duplicated on the
integer part, writing at `CO2Index` and stepping the index with
`CO2Index < JSON_DATA_POINTS_MAX ? CO2Index + 1 : 0`; `prevCO2` and
`prevEpoch` are updated whenever the epoch gate passes. -/
def recordCO2 (currentEpoch : ℤ) (co2 : ℚ) (st : Co2Channel) : Co2Channel :=
  if st.prevEpoch < currentEpoch then
    if cTrunc co2 ≠ cTrunc st.prevCO2 then
      { co2Index := if st.co2Index < JSON_DATA_POINTS_MAX then st.co2Index + 1 else 0,
        data := writeSlot st.co2Index (currentEpoch, cTrunc co2) st.data,
        prevCO2 := co2, prevEpoch := currentEpoch }
    else
      { st with prevCO2 := co2, prevEpoch := currentEpoch }
  else st

/-- Delivering a list of (epoch, CO2) samples in order. -/
def recordMany : List (ℤ × ℚ) → Co2Channel → Co2Channel
  | [], st => st
  | (e, v) :: rest, st => recordMany rest (recordCO2 e v st)

/-- The `k`-th sample of the capacity-overflow run: strictly increasing epoch
seconds and pairwise distinct integer CO2 values. -/
def overflowSample (k : ℕ) : ℤ × ℚ := ((k : ℤ) + 1, ((401 + k : ℕ) : ℚ))

/-- The channel state after the first `n` overflow samples. -/
def overflowRun (n : ℕ) : Co2Channel :=
  recordMany ((List.range n).map overflowSample) initCo2Channel

/-- The state of the CSV sink task `csvFileManagerTask` (main.cpp lines
759-831): lines durably flushed to the flash file, lines written to the
`File` buffer but not yet flushed, the `bufferSizeNow` counter and the
`csvDataFilesize` tracker. -/
structure CsvState where
  flashLines : List String
  pendingLines : List String
  bufferSizeNow : ℕ
  csvDataFilesize : ℕ
deriving DecidableEq

/-- `FLUSH_THRESHOLD` (main.cpp line 766). -/
def FLUSH_THRESHOLD : ℕ := 128

/-- `FLUSH_EVERY_THRESHOLD` (main.cpp line 767). -/
def FLUSH_EVERY_THRESHOLD : ℕ := 512

/-- Bytes added by `csvDataFile.println(line)`: the line plus CRLF. -/
def lineBytes (line : String) : ℕ := line.length + 2

/-- Processing one queued CSV line (main.cpp lines 810-829): the line is
written only while `csvDataFilesize < MAX_CSV_SIZE_BYTES`; the explicit
flush fires when `bufferSizeNow > FLUSH_THRESHOLD` or while
`csvDataFilesize < FLUSH_EVERY_THRESHOLD`, moving the buffered lines to
flash and adding `bufferSizeNow` to `csvDataFilesize`. -/
def processCsvLine (line : String) (s : CsvState) : CsvState :=
  if s.csvDataFilesize < MAX_CSV_SIZE_BYTES then
    let s1 : CsvState :=
      { s with pendingLines := s.pendingLines ++ [line],
               bufferSizeNow := s.bufferSizeNow + lineBytes line }
    if FLUSH_THRESHOLD < s1.bufferSizeNow ∨ s1.csvDataFilesize < FLUSH_EVERY_THRESHOLD then
      { flashLines := s1.flashLines ++ s1.pendingLines,
        pendingLines := [],
        bufferSizeNow := 0,
        csvDataFilesize := s1.csvDataFilesize + s1.bufferSizeNow }
    else s1
  else s

/-- Draining a list of queued CSV lines in order. -/
def processCsvLines (lines : List String) (s : CsvState) : CsvState :=
  lines.foldl (fun st l => processCsvLine l st) s

/-- The clear notification (main.cpp lines 789-808): the file is closed,
removed and re-created by `initializeCsvFile` containing only the header,
and the counters restart from the header size. -/
def clearCsv (header : String) : CsvState :=
  { flashLines := [header], pendingLines := [], bufferSizeNow := 0,
    csvDataFilesize := header.length }

/-- The operations performed, in order, by the `/data.json` GET handler
(main.cpp lines 536-543).  The handler is straight-line code: the result of
`xSemaphoreTake(jsonDocMutex, 1)` is discarded and `serializeJson` runs
unconditionally. -/
inductive JsonDocAction where
  | takeMutex (timeoutTicks : ℕ)
  | serialize
  | giveMutex
  | send
deriving DecidableEq

/-- The body of the `/data.json` handler as its action sequence. -/
def dataJsonHandlerActions : List JsonDocAction :=
  [JsonDocAction.takeMutex 1, JsonDocAction.serialize, JsonDocAction.giveMutex,
   JsonDocAction.send]

/-- Observed effects of running the handler: whether the mutex is held, how
many serializations ran, and whether any serialization ran while the mutex
was not held. -/
structure JsonDocRun where
  held : Bool
  serializedCount : ℕ
  serializedWithoutMutex : Bool
deriving DecidableEq

/-- Semantics of one handler action when the mutex is free (`mutexFree =
true`) or held by another task for longer than the timeout (`mutexFree =
false`). -/
def stepJsonAction (mutexFree : Bool) (st : JsonDocRun) : JsonDocAction → JsonDocRun
  | JsonDocAction.takeMutex _ => { st with held := mutexFree }
  | JsonDocAction.serialize =>
      { st with serializedCount := st.serializedCount + 1,
                serializedWithoutMutex := st.serializedWithoutMutex || !st.held }
  | JsonDocAction.giveMutex => { st with held := false }
  | JsonDocAction.send => st

/-- Running the `/data.json` handler against a given mutex availability. -/
def runDataJsonHandler (mutexFree : Bool) : JsonDocRun :=
  dataJsonHandlerActions.foldl (stepJsonAction mutexFree)
    { held := false, serializedCount := 0, serializedWithoutMutex := false }

/-! ## Helper lemmas -/

/-- `cTrunc` agrees with the identity on natural-number values. -/
theorem cTrunc_natCast (m : ℕ) : cTrunc ((m : ℕ) : ℚ) = m := by
  rw [cTrunc, if_pos (by positivity)]
  exact_mod_cast Int.floor_natCast m

/-! ## Claim C8: `/data.json` serialization and the store mutex (code bug)

The handler at main.cpp lines 536-543 discards the return value of
`xSemaphoreTake(jsonDocMutex, 1)`.  When the mutex cannot be acquired within
the 1-tick timeout the document is serialized anyway, without the mutex —
contradicting the mutex's documented purpose (main.cpp lines 162-163) and the
claim that the snapshot is skipped on acquisition timeout. -/

/-- Claim C8 (code bug evaluation): when the mutex is unavailable
(`mutexFree = false`, i.e. acquisition times out), the `/data.json` handler
still performs exactly one serialization, and it happens while the mutex is
not held; when the mutex is free, serialization happens under the mutex. -/
theorem dataJson_serializes_without_mutex :
    (runDataJsonHandler false).serializedCount = 1 ∧
    (runDataJsonHandler false).serializedWithoutMutex = true ∧
    (runDataJsonHandler true).serializedCount = 1 ∧
    (runDataJsonHandler true).serializedWithoutMutex = false := by
  decide

/-! ## Claim C9: `roundToXDP` (code bug)

The source's own doc comment (main.cpp lines 165-174) promises rounding to
`decimalPlaces` decimal places, but the body multiplies and divides by
`10 * decimalPlaces` instead of `10 ^ decimalPlaces` and the final division
is C integer division, so for `decimalPlaces = 1` the result is an integer:
`roundToXDP(1, 21.56) = 21`, not `21.6`. -/

/-- Claim C9 (code bug evaluation): `roundToXDP 1 21.56 = 21`, not the
claimed `21.6`; moreover `21.56` and `21.9` collapse to the same value, so
the temperature de-duplication does not operate at 0.1-degree resolution. -/
theorem roundToXDP_one_decimal_bug :
    roundToXDP 1 (2156/100) = 21 ∧
    roundToXDP 1 (219/10) = 21 ∧
    (21 : ℚ) ≠ 216/10 := by
  refine ⟨?_, ?_, by norm_num⟩
  · rw [roundToXDP]
    have h1 : (2156/100 : ℚ) * ((10 * 1 : ℕ) : ℚ) + 1/2 = 2161/10 := by norm_num
    rw [h1]
    have h2 : cTrunc (2161/10) = 216 := by
      rw [cTrunc, if_pos (by norm_num)]
      norm_num
    rw [h2]
    have h3 : cDiv 216 ((10 * 1 : ℕ) : ℤ) = 21 := by decide
    rw [h3]
    norm_num
  · rw [roundToXDP]
    have h1 : (219/10 : ℚ) * ((10 * 1 : ℕ) : ℚ) + 1/2 = 439/2 := by norm_num
    rw [h1]
    have h2 : cTrunc (439/2) = 219 := by
      rw [cTrunc, if_pos (by norm_num)]
      norm_num
    rw [h2]
    have h3 : cDiv 219 ((10 * 1 : ℕ) : ℤ) = 21 := by decide
    rw [h3]
    norm_num

/-! ## Claim C10: zero-position notifications are ignored -/

/-- Claim C10: a notification word whose upper 16 bits are zero leaves
`targetPosition` unchanged; CO2 at or below `CO2_MIN` maps to position 0; a
sensor-manager notification word delivers its position exactly when it is
nonzero; and the handler never moves a nonzero target to 0. -/
theorem zero_position_notifications :
    (∀ tp raw m, high16Bits raw = 0 →
      (handleTargetPositionNotification tp raw m).1 = tp) ∧
    (∀ co2 : ℚ, co2 ≤ (CO2_MIN : ℚ) → mapCO2toPosition co2 = 0) ∧
    (∀ tp p m, p < 65536 →
      (handleTargetPositionNotification tp (sensorNotifyWord p) m).1 =
        if p = 0 then tp else p) ∧
    (∀ tp raw m, tp ≠ 0 → (handleTargetPositionNotification tp raw m).1 ≠ 0) := by
  refine ⟨?_, ?_, ?_, ?_⟩
  · intro tp raw m hraw
    simp [handleTargetPositionNotification, hraw]
  · intro co2 hco2
    rw [mapCO2toPosition, if_neg (not_lt.mpr hco2)]
  · intro tp p m hp
    have h2 : high16Bits (sensorNotifyWord p) = p := by
      rw [sensorNotifyWord, high16Bits]
      omega
    rcases eq_or_ne p 0 with h0 | h0
    · subst h0
      simp [handleTargetPositionNotification, h2]
    · simp [handleTargetPositionNotification, h2, h0]
  · intro tp raw m htp
    rcases eq_or_ne (high16Bits raw) 0 with h0 | h0
    · simp [handleTargetPositionNotification, h0, htp]
    · simp [handleTargetPositionNotification, h0]

/-- Witness for C10 at concrete inputs. -/
theorem zero_position_notifications_witness :
    high16Bits 7 = 0 ∧ (handleTargetPositionNotification 55 7 idleFrame).1 = 55 :=
  ⟨by decide, zero_position_notifications.1 55 7 idleFrame (by decide)⟩

/-! ## Claim C1: plausibility filtering of sensor readings (corrected)

`sensorManagerTask` (main.cpp lines 966-989) checks only the return status of
`co2.readMeasurement`.  There is no physical-plausibility filter: a
successful read of CO2 = 0 ppm, temperature = 200 °C, humidity = 150 %RH is
processed and alters the smoothing state. -/

/-- Counterexample to C1 as stated: the successfully read but physically
implausible measurement (CO2 = 0, temperature = 200, humidity = 150) is not
rejected — it changes the smoothing state (smoothed temperature becomes
104.7, smoothed humidity becomes 75). -/
theorem implausible_reading_alters_state :
    (processMeasurement 0 0 200 150 initSensorState).1.temperature = 1047/10 ∧
    (processMeasurement 0 0 200 150 initSensorState).1.humidity = 75 ∧
    initSensorState.temperature = 20 ∧ initSensorState.humidity = 0 ∧
    (processMeasurement 0 0 200 150 initSensorState).1 ≠ initSensorState := by
  have h1 : (processMeasurement 0 0 200 150 initSensorState).1.temperature = 1047/10 := by
    simp [processMeasurement, initSensorState, TEMP_OFFSET]
    norm_num
  have h2 : (processMeasurement 0 0 200 150 initSensorState).1.humidity = 75 := by
    simp [processMeasurement, initSensorState]
    norm_num
  refine ⟨h1, h2, rfl, rfl, ?_⟩
  intro hEq
  rw [hEq] at h2
  norm_num [initSensorState] at h2

/-- Claim C1 (amended): a measurement cycle is skipped with no change to the
smoothing state exactly when the sensor read itself fails (nonzero
`readMeasurement` status); a successful read is processed regardless of
physical plausibility, and the implausible reading (CO2 = 0, 200 °C,
150 %RH) does alter the smoothing state. -/
theorem rejection_only_on_read_failure :
    (∀ (status : ℤ) (co2 rawT rawH : ℚ) (s : SensorState), status ≠ 0 →
      processMeasurement status co2 rawT rawH s = (s, none)) ∧
    (processMeasurement 0 0 200 150 initSensorState).1.temperature ≠
      initSensorState.temperature := by
  constructor
  · intro status co2 rawT rawH s hstatus
    rw [processMeasurement, if_neg hstatus]
  · have h1 : (processMeasurement 0 0 200 150 initSensorState).1.temperature = 1047/10 := by
      simp [processMeasurement, initSensorState, TEMP_OFFSET]
      norm_num
    rw [h1]
    norm_num [initSensorState]

/-- Witness for C1's amended theorem: a failed read (status 1) leaves the
state untouched. -/
theorem rejection_only_on_read_failure_witness :
    (1 : ℤ) ≠ 0 ∧ processMeasurement 1 0 200 150 initSensorState = (initSensorState, none) :=
  ⟨by norm_num, rejection_only_on_read_failure.1 1 0 200 150 initSensorState (by norm_num)⟩

/-! ## Claim C3: lightbar position notification channel (corrected)

The sensor manager sends the position with `eSetValueWithoutOverwrite`
(main.cpp line 974): a newer position sent while an older one is undelivered
is dropped, and the renderer observes the older value — not latest-value-wins
overwrite as claimed. -/

/-- Counterexample to C3 as stated: two successive position sends while the
first is undelivered leave the *older* word in the slot; the renderer
observes `sensorNotifyWord 1`, not the most recently sent
`sensorNotifyWord 2`. -/
theorem lightbar_notify_drops_newer :
    (xTaskNotifyWaitModel
      ((xTaskNotifyWithoutOverwrite (sensorNotifyWord 2)
        ((xTaskNotifyWithoutOverwrite (sensorNotifyWord 1)
          { pending := false, value := 0 }).1)).1)).1 = some (sensorNotifyWord 1) ∧
    sensorNotifyWord 1 ≠ sensorNotifyWord 2 := by
  decide

/-- Claim C3 (amended): the position channel is a single-slot channel
*without* overwrite — a send fails and changes nothing while an older
notification is pending, a send into an empty slot stores the value, and
after two sends into an initially empty slot the renderer observes the first
(older) value. -/
theorem lightbar_notify_without_overwrite :
    (∀ v (s : NotifySlot), s.pending = true →
      xTaskNotifyWithoutOverwrite v s = (s, false)) ∧
    (∀ v (s : NotifySlot), s.pending = false →
      xTaskNotifyWithoutOverwrite v s = ({ pending := true, value := v }, true)) ∧
    (∀ v1 v2 (s : NotifySlot), s.pending = false →
      (xTaskNotifyWaitModel ((xTaskNotifyWithoutOverwrite v2
        ((xTaskNotifyWithoutOverwrite v1 s).1)).1)).1 = some v1) := by
  refine ⟨?_, ?_, ?_⟩
  · intro v s hs
    rw [xTaskNotifyWithoutOverwrite, if_pos hs]
  · intro v s hs
    rw [xTaskNotifyWithoutOverwrite, if_neg (by rw [hs]; exact Bool.false_ne_true)]
  · intro v1 v2 s hs
    have hinner : xTaskNotifyWithoutOverwrite v1 s = ({ pending := true, value := v1 }, true) := by
      rw [xTaskNotifyWithoutOverwrite, if_neg (by rw [hs]; exact Bool.false_ne_true)]
    rw [hinner]
    simp [xTaskNotifyWithoutOverwrite, xTaskNotifyWaitModel]

/-- Witness for C3's amended theorem at concrete inputs. -/
theorem lightbar_notify_without_overwrite_witness :
    ({ pending := false, value := 0 } : NotifySlot).pending = false ∧
    (xTaskNotifyWaitModel ((xTaskNotifyWithoutOverwrite 7
      ((xTaskNotifyWithoutOverwrite 3 { pending := false, value := 0 }).1)).1)).1 = some 3 :=
  ⟨rfl, lightbar_notify_without_overwrite.2.2 3 7 { pending := false, value := 0 } rfl⟩

/-! ## Claim C4: warning-flash entry and exit (corrected)

`handleTargetPositionNotification` enters `flashRed` only when the target
position is *strictly greater* than `LIGHTBAR_MAX_POSITION` (main.cpp line
299: `targetPosition > LIGHTBAR_MAX_POSITION`).  CO2 exactly at `CO2_MAX`
maps to position `LIGHTBAR_MAX_POSITION` and does not trigger the flash. -/

/-- Counterexample to C4 as stated: CO2 = CO2_MAX maps to exactly
`LIGHTBAR_MAX_POSITION`, and a notification carrying that position leaves
the renderer in `lightBarScale` — it does not enter `flashRed`. -/
theorem flash_not_entered_at_co2_max :
    mapCO2toPosition ((CO2_MAX : ℕ) : ℚ) = LIGHTBAR_MAX_POSITION ∧
    (handleTargetPositionNotification 100
      (sensorNotifyWord LIGHTBAR_MAX_POSITION) lightBarScale).1 = LIGHTBAR_MAX_POSITION ∧
    (handleTargetPositionNotification 100
      (sensorNotifyWord LIGHTBAR_MAX_POSITION) lightBarScale).2 = lightBarScale ∧
    lightBarScale ≠ flashRed := by
  refine ⟨?_, by decide, by decide, by decide⟩
  rw [mapCO2toPosition, if_pos (by norm_num [CO2_MIN, CO2_MAX])]
  have h1 : (((CO2_MAX : ℕ) : ℚ) - (CO2_MIN : ℕ)) * ((LIGHTBAR_MAX_POSITION : ℕ) : ℚ) /
      (((CO2_MAX : ℕ) : ℚ) - (CO2_MIN : ℕ)) = 2805 := by
    norm_num [CO2_MIN, CO2_MAX, LIGHTBAR_MAX_POSITION, PIXEL_COUNT]
  rw [h1]
  have h2 : cTrunc 2805 = 2805 := by
    rw [cTrunc, if_pos (by norm_num)]
    norm_num
  rw [h2]
  decide

/-- Claim C4 (amended): for a position-only notification (mode bits zero) the
renderer enters `flashRed` exactly when the notified target position is
*strictly above* `LIGHTBAR_MAX_POSITION`; at or below it (and nonzero) the
mode is left unchanged; and the `flashRed` frame exits back to
`lightBarScale` exactly when the target has dropped strictly below
`LIGHTBAR_MAX_POSITION`. -/
theorem flash_mode_strict_boundary :
    (∀ tp raw m, low8Bits raw = 0 → LIGHTBAR_MAX_POSITION < high16Bits raw →
      (handleTargetPositionNotification tp raw m).2 = flashRed) ∧
    (∀ tp raw m, low8Bits raw = 0 → high16Bits raw ≠ 0 →
      high16Bits raw ≤ LIGHTBAR_MAX_POSITION →
      (handleTargetPositionNotification tp raw m).2 = m) ∧
    (∀ s : LightBarState, s.targetPosition < LIGHTBAR_MAX_POSITION →
      (flashRedStep s).mode = lightBarScale) ∧
    (∀ s : LightBarState, LIGHTBAR_MAX_POSITION ≤ s.targetPosition →
      flashRedStep s = s) := by
  refine ⟨?_, ?_, ?_, ?_⟩
  · intro tp raw m hmode hpos
    have hne : high16Bits raw ≠ 0 := by
      intro h
      rw [h] at hpos
      exact absurd hpos (by decide)
    simp [handleTargetPositionNotification, hmode, hne, hpos]
  · intro tp raw m hmode hne hle
    simp [handleTargetPositionNotification, hmode, hne, not_lt.mpr hle]
  · intro s hs
    rw [flashRedStep, if_pos hs]
  · intro s hs
    rw [flashRedStep, if_neg (not_lt.mpr hs)]

/-- Witness for C4's amended theorem: position 2806 (just above the top of
the bar) does trigger `flashRed`, and a state targeting 2804 exits the flash
back to `lightBarScale`. -/
theorem flash_mode_strict_boundary_witness :
    low8Bits (sensorNotifyWord 2806) = 0 ∧
    LIGHTBAR_MAX_POSITION < high16Bits (sensorNotifyWord 2806) ∧
    (handleTargetPositionNotification 100 (sensorNotifyWord 2806) lightBarScale).2 = flashRed ∧
    (flashRedStep ⟨2804, 0, 0, flashRed⟩).mode = lightBarScale :=
  ⟨by decide, by decide,
    flash_mode_strict_boundary.1 100 (sensorNotifyWord 2806) lightBarScale
      (by decide) (by decide),
    flash_mode_strict_boundary.2.2.1 _ (by decide)⟩

/-! ## Claim C6: per-frame position stepping (corrected)

`updatePosition` (main.cpp lines 255-266) steps toward the target only for
targets inside `[LIGHTBAR_MIN_POSITION, LIGHTBAR_MAX_POSITION)`.  A target
below the minimum causes a direct jump to `LIGHTBAR_MIN_POSITION`; a target
at or above the maximum leaves the position unchanged. -/

/-- Counterexample to C6 as stated: with current position 0 and target
`LIGHTBAR_MAX_POSITION` the position does not move at all, and with current
position 300 and target 0 the position jumps directly to 255 (a step of 45,
far beyond the claimed `(T-P)/32 + 1` bound). -/
theorem updatePosition_ignores_out_of_range_target :
    updatePosition 0 LIGHTBAR_MAX_POSITION = 0 ∧
    (0 : ℕ) ≠ LIGHTBAR_MAX_POSITION ∧
    updatePosition 300 0 = 255 := by
  decide

/-- Claim C6 (amended): for targets inside
`[LIGHTBAR_MIN_POSITION, LIGHTBAR_MAX_POSITION)` one frame moves the position
strictly toward the target — downward by exactly 1, upward by exactly
`(T - P)/32 + 1` (which is at least 1), never overshooting the target.
Targets below `LIGHTBAR_MIN_POSITION` snap the position to
`LIGHTBAR_MIN_POSITION`, and targets at or above `LIGHTBAR_MAX_POSITION`
leave the position unchanged. -/
theorem updatePosition_step_behavior :
    (∀ p t, LIGHTBAR_MIN_POSITION ≤ t → t < LIGHTBAR_MAX_POSITION → t < p →
      updatePosition p t = p - 1) ∧
    (∀ p t, LIGHTBAR_MIN_POSITION ≤ t → t < LIGHTBAR_MAX_POSITION → p < t →
      updatePosition p t = p + (t - p) / 32 + 1 ∧
      p < updatePosition p t ∧ updatePosition p t ≤ t) ∧
    (∀ p t, t < LIGHTBAR_MIN_POSITION → updatePosition p t = LIGHTBAR_MIN_POSITION) ∧
    (∀ p t, LIGHTBAR_MAX_POSITION ≤ t → updatePosition p t = p) := by
  have hmaxval : LIGHTBAR_MAX_POSITION = 2805 := by decide
  refine ⟨?_, ?_, ?_, ?_⟩
  · intro p t hmin hmax hpt
    rw [updatePosition, if_neg (not_lt.mpr hmin), if_pos hmax, if_pos hpt]
  · intro p t hmin hmax hpt
    have hdiv : (t - p) / 32 < t - p :=
      Nat.div_lt_self (by omega) (by norm_num)
    have hlt : p + (t - p) / 32 + 1 < 65536 := by
      rw [hmaxval] at hmax
      omega
    have heq : updatePosition p t = p + (t - p) / 32 + 1 := by
      rw [updatePosition, if_neg (not_lt.mpr hmin), if_pos hmax,
        if_neg (by omega), if_pos hpt, Nat.mod_eq_of_lt hlt]
    refine ⟨heq, by omega, by rw [heq]; omega⟩
  · intro p t hmin
    rw [updatePosition, if_pos hmin]
  · intro p t hmax
    have hminval : LIGHTBAR_MIN_POSITION = 255 := by decide
    rw [hmaxval] at hmax
    rw [updatePosition, if_neg (by rw [hminval]; omega),
      if_neg (by rw [hmaxval]; omega)]

/-- Witness for C6's amended theorem: from position 500 toward target 1000
the frame steps up by exactly `(1000-500)/32 + 1 = 16` without overshoot. -/
theorem updatePosition_step_behavior_witness :
    LIGHTBAR_MIN_POSITION ≤ 1000 ∧ 1000 < LIGHTBAR_MAX_POSITION ∧ (500 : ℕ) < 1000 ∧
    (updatePosition 500 1000 = 500 + (1000 - 500) / 32 + 1 ∧
      500 < updatePosition 500 1000 ∧ updatePosition 500 1000 ≤ 1000) :=
  ⟨by decide, by decide, by decide,
    updatePosition_step_behavior.2.1 500 1000 (by decide) (by decide) (by decide)⟩

/-! ## Claim C7: CSV size cap and clear -/

/-- Claim C7: once `csvDataFilesize` has reached `MAX_CSV_SIZE_BYTES`,
processing any further queued lines leaves the sink state (and hence the
file) completely unchanged, until a clear; a clear re-creates the file
containing only the header row and restarts the counters from the header
size. -/
theorem csv_cap_and_clear :
    (∀ (s : CsvState) (line : String), MAX_CSV_SIZE_BYTES ≤ s.csvDataFilesize →
      processCsvLine line s = s) ∧
    (∀ (s : CsvState) (lines : List String), MAX_CSV_SIZE_BYTES ≤ s.csvDataFilesize →
      processCsvLines lines s = s) ∧
    (∀ header : String, (clearCsv header).flashLines = [header] ∧
      (clearCsv header).pendingLines = [] ∧
      (clearCsv header).csvDataFilesize = header.length) := by
  have hone : ∀ (s : CsvState) (line : String), MAX_CSV_SIZE_BYTES ≤ s.csvDataFilesize →
      processCsvLine line s = s := by
    intro s line hs
    rw [processCsvLine, if_neg (not_lt.mpr hs)]
  refine ⟨hone, ?_, fun header => ⟨rfl, rfl, rfl⟩⟩
  intro s lines hs
  induction lines generalizing s with
  | nil => rfl
  | cons l ls ih =>
      have h1 : processCsvLines (l :: ls) s = processCsvLines ls (processCsvLine l s) := rfl
      rw [h1, hone s l hs, ih s hs]

/-- Witness for C7: a sink state already at the cap absorbs two further
queued lines without any change. -/
theorem csv_cap_and_clear_witness :
    MAX_CSV_SIZE_BYTES ≤ (CsvState.mk ["H"] [] 0 2000000).csvDataFilesize ∧
    processCsvLines ["12/3/2023,14:05,800,45,21.5", "12/3/2023,14:06,805,45,21.5"]
      (CsvState.mk ["H"] [] 0 2000000) = CsvState.mk ["H"] [] 0 2000000 :=
  ⟨by norm_num [MAX_CSV_SIZE_BYTES],
    csv_cap_and_clear.2.1 (CsvState.mk ["H"] [] 0 2000000) _
      (by norm_num [MAX_CSV_SIZE_BYTES])⟩

/-! ## Claim C5: trend update, seeding and convergence -/

/-- One successful cycle updates `trendCO2` by the trend formula of main.cpp
line 971 (with `prevCO2` seeded to the current CO2 when it is still 0). -/
theorem sensorStep_trend (co2 rawT rawH : ℚ) (s : SensorState) :
    (sensorStep co2 rawT rawH s).trendCO2 =
      (1/2) * (co2 - (if s.prevCO2 = 0 then co2 else s.prevCO2)) + (1/2) * s.trendCO2 := by
  simp only [sensorStep, processMeasurement, if_pos rfl]
  norm_num

/-- One successful cycle ends with `prevCO2 = CO2` (main.cpp line 987). -/
theorem sensorStep_prevCO2 (co2 rawT rawH : ℚ) (s : SensorState) :
    (sensorStep co2 rawT rawH s).prevCO2 = co2 := rfl

/-- Once `prevCO2` equals the (constant) input, each further cycle halves the
trend. -/
theorem sensorStep_trend_halves (c rawT rawH : ℚ) (s : SensorState)
    (hs : s.prevCO2 = c) :
    (sensorStep c rawT rawH s).trendCO2 = (1/2) * s.trendCO2 := by
  rw [sensorStep_trend, hs, ite_self]
  ring

/-- Under constant input with `prevCO2` already equal to the input, the trend
decays geometrically. -/
theorem iterConst_trend_geometric (c rawT rawH : ℚ) :
    ∀ (n : ℕ) (s : SensorState), s.prevCO2 = c →
      (iterConst c rawT rawH n s).trendCO2 = s.trendCO2 * (1/2) ^ n ∧
      (iterConst c rawT rawH n s).prevCO2 = c := by
  intro n
  induction n with
  | zero =>
      intro s hs
      simp [iterConst, hs]
  | succ n ih =>
      intro s hs
      have h1 := sensorStep_trend_halves c rawT rawH s hs
      have h2 := sensorStep_prevCO2 c rawT rawH s
      obtain ⟨ha, hb⟩ := ih (sensorStep c rawT rawH s) h2
      constructor
      · show (iterConst c rawT rawH n (sensorStep c rawT rawH s)).trendCO2 = _
        rw [ha, h1]
        ring
      · exact hb

/-- For any nonnegative coefficient, the geometric sequence `x * (1/2)^n`
eventually drops below any positive bound. -/
theorem half_pow_eventually_small (x ε : ℚ) (hx : 0 ≤ x) (hε : 0 < ε) :
    ∃ N : ℕ, ∀ n, N ≤ n → x * (1/2) ^ n < ε := by
  obtain ⟨M, hM⟩ := exists_nat_gt (x / ε)
  have hpow : (M : ℚ) ≤ 2 ^ M := by
    have := (Nat.lt_two_pow M).le
    exact_mod_cast this
  have h2M : (0 : ℚ) < 2 ^ M := by positivity
  have hx2 : x < ε * 2 ^ M := by
    have h1 : x / ε < 2 ^ M := lt_of_lt_of_le hM hpow
    calc x = x / ε * ε := (div_mul_cancel₀ x hε.ne').symm
      _ < 2 ^ M * ε := mul_lt_mul_of_pos_right h1 hε
      _ = ε * 2 ^ M := mul_comm _ _
  refine ⟨M, fun n hn => ?_⟩
  have hmono : ((1 : ℚ)/2) ^ n ≤ (1/2) ^ M :=
    pow_le_pow_of_le_one (by norm_num) (by norm_num) hn
  have hle : x * (1/2) ^ n ≤ x * (1/2) ^ M := mul_le_mul_of_nonneg_left hmono hx
  refine lt_of_le_of_lt hle ?_
  have hhalf : ((1 : ℚ)/2) ^ M = 1 / 2 ^ M := by
    rw [div_pow, one_pow]
  rw [hhalf, mul_one_div, div_lt_iff₀ h2M]
  linarith

/-- Claim C5: on every accepted sample the trend updates as
`trend = 0.5*(co2 - prev) + 0.5*trend` (with `prevCO2` seeded to the sample
when still 0), the notified position is computed from the predicted value
`co2 + trend`, the very first sample produces trend 0, and under any
constant input the trend tends to 0 and the predicted value tends to the
input. -/
theorem trend_update_and_convergence :
    (∀ (co2 rawT rawH : ℚ) (s : SensorState),
      (sensorStep co2 rawT rawH s).trendCO2 =
        (1/2) * (co2 - (if s.prevCO2 = 0 then co2 else s.prevCO2)) + (1/2) * s.trendCO2 ∧
      (sensorStep co2 rawT rawH s).prevCO2 = co2 ∧
      (processMeasurement 0 co2 rawT rawH s).2 =
        some (mapCO2toPosition (co2 + (sensorStep co2 rawT rawH s).trendCO2))) ∧
    (∀ co2 rawT rawH : ℚ, (sensorStep co2 rawT rawH initSensorState).trendCO2 = 0) ∧
    (∀ (c rawT rawH : ℚ) (s : SensorState) (ε : ℚ), 0 < ε →
      ∃ N : ℕ, ∀ n, N ≤ n →
        |(iterConst c rawT rawH n s).trendCO2| < ε ∧
        |(c + (iterConst c rawT rawH n s).trendCO2) - c| < ε) := by
  refine ⟨?_, ?_, ?_⟩
  · intro co2 rawT rawH s
    exact ⟨sensorStep_trend co2 rawT rawH s, sensorStep_prevCO2 co2 rawT rawH s, rfl⟩
  · intro co2 rawT rawH
    rw [sensorStep_trend]
    simp [initSensorState]
  · intro c rawT rawH s ε hε
    set s1 := sensorStep c rawT rawH s with hs1
    have hprev : s1.prevCO2 = c := sensorStep_prevCO2 c rawT rawH s
    obtain ⟨N0, hN0⟩ := half_pow_eventually_small |s1.trendCO2| ε (abs_nonneg _) hε
    refine ⟨N0 + 1, fun n hn => ?_⟩
    obtain ⟨m, rfl⟩ : ∃ m, n = m + 1 := ⟨n - 1, by omega⟩
    have hiter : iterConst c rawT rawH (m + 1) s = iterConst c rawT rawH m s1 := rfl
    have hgeo := (iterConst_trend_geometric c rawT rawH m s1 hprev).1
    have habs : |(iterConst c rawT rawH (m + 1) s).trendCO2| =
        |s1.trendCO2| * (1/2) ^ m := by
      rw [hiter, hgeo, abs_mul, abs_pow, abs_of_nonneg (by norm_num : (0:ℚ) ≤ 1/2)]
    have hsmall : |s1.trendCO2| * (1/2) ^ m < ε := hN0 m (by omega)
    refine ⟨by rw [habs]; exact hsmall, ?_⟩
    rw [add_sub_cancel_left, habs]
    exact hsmall

/-- Witness for C5: with constant input 600 ppm from the initial state, the
trend eventually stays within 1 ppm of 0 and the prediction within 1 ppm of
600. -/
theorem trend_update_and_convergence_witness :
    (0 : ℚ) < 1 ∧ ∃ N : ℕ, ∀ n, N ≤ n →
      |(iterConst 600 25 50 n initSensorState).trendCO2| < 1 ∧
      |((600 : ℚ) + (iterConst 600 25 50 n initSensorState).trendCO2) - 600| < 1 :=
  ⟨by norm_num, trend_update_and_convergence.2.2 600 25 50 initSensorState 1 (by norm_num)⟩

/-! ## Claim C2: time-series buffer capacity (code bug)

The wrap expression `CO2Index = (CO2Index < JSON_DATA_POINTS_MAX) ?
(CO2Index + 1) : (0)` (main.cpp line 876) lets the index take the values
`0 .. JSON_DATA_POINTS_MAX` *inclusive* — 129 distinct slots, although
`JSON_DATA_POINTS_MAX = 128` is documented in the source as "the maximum
number of data points to store".  Feeding 129 samples with pairwise distinct
integer values and strictly increasing epochs stores 129 points. -/

/-- `recordMany` distributes over list append. -/
theorem recordMany_append (l1 l2 : List (ℤ × ℚ)) (st : Co2Channel) :
    recordMany (l1 ++ l2) st = recordMany l2 (recordMany l1 st) := by
  induction l1 generalizing st with
  | nil => rfl
  | cons p rest ih =>
      obtain ⟨e, v⟩ := p
      simp only [List.cons_append, recordMany]
      exact ih _

/-- Unfolding one step of the overflow run. -/
theorem overflowRun_succ (n : ℕ) :
    overflowRun (n + 1) =
      recordCO2 ((n : ℤ) + 1) ((401 + n : ℕ) : ℚ) (overflowRun n) := by
  rw [overflowRun, List.range_succ, List.map_append, recordMany_append]
  rfl

/-- `recordCO2` on a fresh sample (newer epoch, different integer value):
the point is written at the current index and the index steps. -/
theorem recordCO2_fresh (e : ℤ) (v : ℚ) (st : Co2Channel)
    (hgate : st.prevEpoch < e) (hdedup : cTrunc v ≠ cTrunc st.prevCO2) :
    recordCO2 e v st =
      { co2Index := if st.co2Index < JSON_DATA_POINTS_MAX then st.co2Index + 1 else 0,
        data := writeSlot st.co2Index (e, cTrunc v) st.data,
        prevCO2 := v, prevEpoch := e } := by
  rw [recordCO2, if_pos hgate, if_pos hdedup]

/-- State of the CO2 channel after `n ≤ 129` fresh samples: `n` stored
points, with the write index following the source's wrap expression. -/
theorem overflowRun_spec : ∀ n : ℕ, n ≤ 129 →
    (overflowRun n).data.length = n ∧
    (overflowRun n).co2Index = (if n ≤ 128 then n else 0) ∧
    (overflowRun n).prevEpoch = (n : ℤ) ∧
    (overflowRun n).prevCO2 = (((if n = 0 then 0 else 400 + n) : ℕ) : ℚ) := by
  intro n
  induction n with
  | zero =>
      intro _
      refine ⟨rfl, ?_, ?_, ?_⟩ <;> simp [overflowRun, recordMany, initCo2Channel]
  | succ n ih =>
      intro hn
      have hn128 : n ≤ 128 := by omega
      obtain ⟨hlen, hidx, hepoch, hprev⟩ := ih (by omega)
      have hgate : (overflowRun n).prevEpoch < (n : ℤ) + 1 := by
        rw [hepoch]
        exact lt_add_one _
      have hdedup : cTrunc ((401 + n : ℕ) : ℚ) ≠ cTrunc (overflowRun n).prevCO2 := by
        rw [cTrunc_natCast, hprev, cTrunc_natCast]
        intro hcontra
        have h2 : (401 + n : ℕ) = (if n = 0 then 0 else 400 + n) := by exact_mod_cast hcontra
        rcases eq_or_ne n 0 with h0 | h0
        · rw [if_pos h0] at h2
          omega
        · rw [if_neg h0] at h2
          omega
      rw [overflowRun_succ, recordCO2_fresh _ _ _ hgate hdedup]
      refine ⟨?_, ?_, ?_, ?_⟩
      · have hidx2 : (overflowRun n).co2Index = n := by rw [hidx, if_pos hn128]
        show (writeSlot (overflowRun n).co2Index _ (overflowRun n).data).length = n + 1
        rw [writeSlot, hidx2, hlen, if_neg (lt_irrefl n), List.length_append, hlen]
        rfl
      · show (if (overflowRun n).co2Index < JSON_DATA_POINTS_MAX
            then (overflowRun n).co2Index + 1 else 0) = _
        rw [hidx, if_pos hn128, JSON_DATA_POINTS_MAX]
        split_ifs <;> omega
      · show (n : ℤ) + 1 = ((n + 1 : ℕ) : ℤ)
        push_cast
        ring
      · show ((401 + n : ℕ) : ℚ) = (((if n + 1 = 0 then 0 else 400 + (n + 1)) : ℕ) : ℚ)
        rw [if_neg (Nat.succ_ne_zero n)]
        exact_mod_cast congrArg (fun k : ℕ => (k : ℚ)) (by omega : (401 + n : ℕ) = 400 + (n + 1))

/-- Claim C2 (code bug evaluation): inserting 129 samples with pairwise
distinct integer values and strictly increasing epochs into the CO2 channel
stores 129 points — one more than `JSON_DATA_POINTS_MAX = 128` — and only
then does the write index wrap to 0. -/
theorem jsonStore_capacity_overflow :
    JSON_DATA_POINTS_MAX = 128 ∧
    (overflowRun 129).data.length = 129 ∧
    JSON_DATA_POINTS_MAX < (overflowRun 129).data.length ∧
    (overflowRun 129).co2Index = 0 := by
  obtain ⟨hlen, hidx, -, -⟩ := overflowRun_spec 129 (le_refl _)
  refine ⟨rfl, hlen, ?_, ?_⟩
  · rw [hlen]
    decide
  · rw [hidx]
    norm_num

end KeaCO2
